import Mathlib

/-!
Verification of the structural syntax extractor's normalization layer
against its conformance fixture
(`crates/forge_services/src/tools/syn/lang/python/valid.py`).

The repository ships only the Python conformance fixture; the Declaration
Walker, Modifier Resolver and Normalizer it exercises are described by the
design document (spec.md §2–§4) and are modelled here from that document.
The fixture itself is transcribed below, declaration for declaration, as
the concrete-syntax-tree input those components consume.
-/

set_option maxRecDepth 4000

namespace Forge.Syn

/-- Modelled from the spec: a source location, start/end position of a
declaration (§3 `location`).  No claim tests columns, so the model keeps
the line span; lines are 1-based, matching the fixture listing. -/
structure Location where
  startLine : Nat
  endLine : Nat
deriving DecidableEq, Repr

/-- Modelled from the spec: the fixed normalized qualifier vocabulary
(§3 `qualifiers`): Async, Static, ClassLevel, Abstract, Decorated. -/
inductive Qualifier where
  | Async
  | Static
  | ClassLevel
  | Abstract
  | Decorated
deriving DecidableEq, Repr

/-- Modelled from the spec: the kind of a Declaration
(§3 `kind`): Function, Method, Class, Module. -/
inductive DeclKind where
  | Function
  | Method
  | Class
  | Module
deriving DecidableEq, Repr

/-- Modelled from the spec: one normalized parameter
(§3 `parameters`): name, optional type annotation, and whether a default
value is present. -/
structure Param where
  name : String
  typeAnn : Option String
  defaultValuePresent : Bool
deriving DecidableEq, Repr

/-- Modelled from the spec: `StructuralError` (§7) — the front end or
Walker could not produce a usable tree past some point; carries the
furthest successfully-parsed location. -/
structure StructuralError where
  location : Location
deriving DecidableEq, Repr

/-- Modelled from the spec: a node of the concrete syntax tree as the
external Concrete Front End exposes it (§6): node kind, name, source
span, attached raw modifier tokens (decorator expressions, the `async`
keyword), the unparsed parameter token list, the class header's base
list, a docstring-like leading string literal when the front end
identifies one, and child nodes.  The front end itself is out of scope
(§1); its output for the fixture is transcribed further below. -/
inductive CNode where
  | defNode (isAsync : Bool) (name : String) (location : Location)
      (params : List String) (returnType : Option String)
      (decorators : List String) (docstring : Option String)
      (body : List CNode) : CNode
  | classNode (name : String) (location : Location)
      (bases : List String) (decorators : List String)
      (docstring : Option String) (body : List CNode) : CNode

/-- Modelled from the spec: the language-agnostic Declaration tree (§3).
The `parent` back-reference is represented implicitly: children are owned
by their parent, so parenthood is the `children` membership relation. -/
inductive Declaration where
  | mk (kind : DeclKind) (name : String) (qualifiedPath : List String)
      (location : Location) (parameters : List Param)
      (returnType : Option String) (qualifiers : List Qualifier)
      (decoratorExprs : List String) (docComment : Option String)
      (bases : List String) (children : List Declaration) : Declaration

def Declaration.kind : Declaration → DeclKind
  | .mk k _ _ _ _ _ _ _ _ _ _ => k

def Declaration.name : Declaration → String
  | .mk _ n _ _ _ _ _ _ _ _ _ => n

def Declaration.qualifiedPath : Declaration → List String
  | .mk _ _ qp _ _ _ _ _ _ _ _ => qp

def Declaration.location : Declaration → Location
  | .mk _ _ _ loc _ _ _ _ _ _ _ => loc

def Declaration.parameters : Declaration → List Param
  | .mk _ _ _ _ ps _ _ _ _ _ _ => ps

def Declaration.returnType : Declaration → Option String
  | .mk _ _ _ _ _ rt _ _ _ _ _ => rt

def Declaration.qualifiers : Declaration → List Qualifier
  | .mk _ _ _ _ _ _ qs _ _ _ _ => qs

def Declaration.decoratorExprs : Declaration → List String
  | .mk _ _ _ _ _ _ _ de _ _ _ => de

def Declaration.docComment : Declaration → Option String
  | .mk _ _ _ _ _ _ _ _ dc _ _ => dc

def Declaration.bases : Declaration → List String
  | .mk _ _ _ _ _ _ _ _ _ bs _ => bs

def Declaration.children : Declaration → List Declaration
  | .mk _ _ _ _ _ _ _ _ _ _ cs => cs

/-- Splits a character list at every occurrence of the separator. -/
def splitCharsOn (sep : Char) : List Char → List Char → List (List Char)
  | [], acc => [acc.reverse]
  | c :: cs, acc =>
      if c = sep then acc.reverse :: splitCharsOn sep cs []
      else splitCharsOn sep cs (c :: acc)

/-- Drops leading space characters. -/
def dropSpaces : List Char → List Char
  | [] => []
  | c :: cs => if c = ' ' then dropSpaces cs else c :: cs

/-- Trims spaces from both ends of a character list. -/
def trimChars (cs : List Char) : List Char :=
  dropSpaces (dropSpaces cs.reverse).reverse

/-- Modelled from the spec: the Normalizer parses one raw parameter token
into the normalized `{name, type_annotation, default_value_present}`
record (§3): a trailing `= …` marks a present default value, a `name: t`
split yields the verbatim annotation text. -/
def parseParam (raw : String) : Param :=
  let pieces := splitCharsOn '=' raw.data []
  let hasDefault : Bool :=
    match pieces with
    | _ :: _ :: _ => true
    | _ => false
  let head :=
    match pieces with
    | [] => raw.data
    | x :: _ => x
  match splitCharsOn ':' head [] with
  | [] =>
      { name := ⟨trimChars raw.data⟩, typeAnn := none,
        defaultValuePresent := hasDefault }
  | [n] =>
      { name := ⟨trimChars n⟩, typeAnn := none,
        defaultValuePresent := hasDefault }
  | n :: t :: _ =>
      { name := ⟨trimChars n⟩, typeAnn := some ⟨trimChars t⟩,
        defaultValuePresent := hasDefault }

/-- Modelled from the spec: the Modifier Resolver's Python mapping table
(§4.2): `async def` ↦ Async, `@staticmethod` ↦ Static, `@classmethod` ↦
ClassLevel, any other decorator ↦ Decorated with the raw expression
preserved in written order.  Static and ClassLevel are mutually exclusive
by definition (§3); Static takes precedence when both decorators appear.
Returns the qualifier set and the preserved decorator expressions. -/
def resolveModifiers (isAsync : Bool) (decorators : List String) :
    List Qualifier × List String :=
  let unrecognized :=
    decorators.filter (fun d => d ≠ "staticmethod" && d ≠ "classmethod")
  let quals :=
    (if isAsync then [Qualifier.Async] else []) ++
    (if decorators.contains "staticmethod" then [Qualifier.Static]
     else if decorators.contains "classmethod" then [Qualifier.ClassLevel]
     else []) ++
    (if unrecognized.isEmpty then [] else [Qualifier.Decorated])
  (quals, unrecognized)

/-- Modelled from the spec: the kind assigned to a `def` node by its
enclosing scope — a Method's parent is always a Class or another Method,
a bare Function's parent is the Module or another Function (§3). -/
def defKind (parentKind : DeclKind) : DeclKind :=
  if parentKind = DeclKind.Class ∨ parentKind = DeclKind.Method then
    DeclKind.Method
  else
    DeclKind.Function

mutual

/-- Modelled from the spec: the Normalizer (§4.3) assembles one concrete
node into a Declaration: assigns `qualified_path` by scope-stack
concatenation, resolves qualifiers through the Modifier Resolver, keeps
the declared name and kind regardless of decoration, takes `bases` from
the class header verbatim, propagates the front-end-identified docstring
into `doc_comment`, and recursively attaches the nested scope's
declarations as `children`. -/
def normalizeNode (parentKind : DeclKind) (path : List String) :
    CNode → Declaration
  | .defNode isAsync name loc params ret decs doc body =>
      let k := defKind parentKind
      let rm := resolveModifiers isAsync decs
      Declaration.mk k name (path ++ [name]) loc (params.map parseParam)
        ret rm.1 rm.2 doc [] (normalizeNodes k (path ++ [name]) body)
  | .classNode name loc bases decs doc body =>
      let rm := resolveModifiers false decs
      Declaration.mk DeclKind.Class name (path ++ [name]) loc [] none
        rm.1 rm.2 doc bases
        (normalizeNodes DeclKind.Class (path ++ [name]) body)

/-- Modelled from the spec: sibling events are normalized in source
declaration order (§4.1 ordering guarantee). -/
def normalizeNodes (parentKind : DeclKind) (path : List String) :
    List CNode → List Declaration
  | [] => []
  | c :: cs =>
      normalizeNode parentKind path c :: normalizeNodes parentKind path cs

end

/-- Modelled from the spec: the whole output for one file is a single
rooted tree whose root is the Module declaration (§3); the module's
top-level declarations are its children and scope paths start empty. -/
def normalizeModule (nodes : List CNode) (span : Location) : Declaration :=
  Declaration.mk DeclKind.Module "" [] span [] none [] [] none []
    (normalizeNodes DeclKind.Module [] nodes)

/-- Modelled from the spec: the full per-file parse (§6): the external
Concrete Front End either produces the concrete tree or a
`StructuralError`; on success the Normalizer builds the Declaration tree,
on failure the error is returned unchanged and no tree is published. -/
def parseFile (frontEnd : String → Except StructuralError (List CNode))
    (span : Location) (source : String) : Except StructuralError Declaration :=
  match frontEnd source with
  | Except.error e => Except.error e
  | Except.ok nodes => Except.ok (normalizeModule nodes span)

/-- A front end that rejects every input with a `StructuralError` at
line 3, standing in for a file whose class body is unterminated there. -/
def rejectingFrontEnd : String → Except StructuralError (List CNode) :=
  fun _ => Except.error { location := { startLine := 3, endLine := 3 } }

/-! ### The conformance fixture, transcribed

Each declaration of `valid.py` becomes the concrete-syntax node the front
end hands the Walker for it: kind, name, line span, raw parameter tokens,
verbatim return-type text, decorator expressions, identified docstring,
and nested declarations.  Line numbers are the fixture's own. -/

/-- Lines 2-3: `def basic_function(): print("Basic")`. -/
def basicFunctionNode : CNode :=
  CNode.defNode false "basic_function" ⟨2, 3⟩ [] none [] none []

/-- Lines 6-7: `def parameterized_function(a: int, b: str = "default") -> str`. -/
def parameterizedFunctionNode : CNode :=
  CNode.defNode false "parameterized_function" ⟨6, 7⟩
    ["a: int", "b: str = \"default\""] (some "str") [] none []

/-- Lines 13-14: `def __init__(self)` inside `TestClass`. -/
def dunderInitNode : CNode :=
  CNode.defNode false "__init__" ⟨13, 14⟩ ["self"] none [] none []

/-- Lines 16-18: `def instance_method(self)` with its docstring. -/
def instanceMethodNode : CNode :=
  CNode.defNode false "instance_method" ⟨16, 18⟩ ["self"] none []
    (some "Instance method docstring") []

/-- Lines 20-22: `@classmethod def class_method(cls)`. -/
def classMethodNode : CNode :=
  CNode.defNode false "class_method" ⟨20, 22⟩ ["cls"] none
    ["classmethod"] none []

/-- Lines 24-26: `@staticmethod def static_method()`. -/
def staticMethodNode : CNode :=
  CNode.defNode false "static_method" ⟨24, 26⟩ [] none
    ["staticmethod"] none []

/-- Lines 10-26: `class TestClass:` with its docstring and four methods. -/
def testClassNode : CNode :=
  CNode.classNode "TestClass" ⟨10, 26⟩ [] []
    (some "Test class docstring")
    [dunderInitNode, instanceMethodNode, classMethodNode, staticMethodNode]

/-- Lines 29-30: `async def async_function()`. -/
def asyncFunctionNode : CNode :=
  CNode.defNode true "async_function" ⟨29, 30⟩ [] none [] none []

/-- Lines 34-35: `def wrapper(*args, **kwargs)` nested inside `decorator`. -/
def wrapperNode : CNode :=
  CNode.defNode false "wrapper" ⟨34, 35⟩ ["*args", "**kwargs"] none [] none []

/-- Lines 33-36: `def decorator(func)` with the nested `wrapper`. -/
def decoratorNode : CNode :=
  CNode.defNode false "decorator" ⟨33, 36⟩ ["func"] none [] none
    [wrapperNode]

/-- Lines 38-40: `@decorator def decorated_function(): pass`. -/
def decoratedFunctionNode : CNode :=
  CNode.defNode false "decorated_function" ⟨38, 40⟩ [] none
    ["decorator"] none []

/-- Lines 44-45: `def child_method(self)` inside `ChildClass`. -/
def childMethodNode : CNode :=
  CNode.defNode false "child_method" ⟨44, 45⟩ ["self"] none [] none []

/-- Lines 43-45: `class ChildClass(TestClass):`. -/
def childClassNode : CNode :=
  CNode.classNode "ChildClass" ⟨43, 45⟩ ["TestClass"] [] none
    [childMethodNode]

/-- The fixture's module-level declarations in source order. -/
def fixtureNodes : List CNode :=
  [basicFunctionNode, parameterizedFunctionNode, testClassNode,
   asyncFunctionNode, decoratorNode, decoratedFunctionNode, childClassNode]

/-- The normalized Declaration tree for the whole 45-line fixture. -/
def fixtureTree : Declaration :=
  normalizeModule fixtureNodes ⟨1, 45⟩

/-- The observable outline of one declaration: name, kind, qualifier set
and base list — the fields the conformance scenarios constrain. -/
def outlineOf (d : Declaration) : String × DeclKind × List Qualifier × List String :=
  (d.name, d.kind, d.qualifiers, d.bases)

mutual

/-- The qualifier-exclusivity invariant (§3), at every declaration of a
tree: `qualifiers` never contains both Static and ClassLevel. -/
def QualExclusive : Declaration → Prop
  | .mk _ _ _ _ _ _ qs _ _ _ cs =>
      ¬(Qualifier.Static ∈ qs ∧ Qualifier.ClassLevel ∈ qs) ∧
      QualExclusiveAll cs

def QualExclusiveAll : List Declaration → Prop
  | [] => True
  | d :: ds => QualExclusive d ∧ QualExclusiveAll ds

end

mutual

/-- The nesting invariant (§3), at every parent/child edge of a tree: a
Method's parent is a Class or another Method, and a bare Function's
parent is the Module or another Function. -/
def NestOK : Declaration → Prop
  | .mk k _ _ _ _ _ _ _ _ _ cs =>
      (∀ c ∈ cs,
        (c.kind = DeclKind.Method →
          k = DeclKind.Class ∨ k = DeclKind.Method) ∧
        (c.kind = DeclKind.Function →
          k = DeclKind.Module ∨ k = DeclKind.Function)) ∧
      NestOKAll cs

def NestOKAll : List Declaration → Prop
  | [] => True
  | d :: ds => NestOK d ∧ NestOKAll ds

end

/-! ### Helper lemmas -/

/-- The Modifier Resolver never emits both Static and ClassLevel. -/
theorem resolveModifiers_static_classlevel (a : Bool) (decs : List String) :
    ¬(Qualifier.Static ∈ (resolveModifiers a decs).1 ∧
      Qualifier.ClassLevel ∈ (resolveModifiers a decs).1) := by
  rintro ⟨hS, hC⟩
  by_cases h1 : "staticmethod" ∈ decs <;> by_cases h2 : "classmethod" ∈ decs <;>
    simp [resolveModifiers, h1, h2] at hS hC

/-- A normalized declaration has kind Method only when its enclosing
scope is a Class or a Method. -/
theorem kind_eq_method (pk : DeclKind) (path : List String) (c : CNode) :
    (normalizeNode pk path c).kind = DeclKind.Method →
    pk = DeclKind.Class ∨ pk = DeclKind.Method := by
  cases c with
  | defNode a n loc ps r decs doc body =>
      intro h
      by_cases hpk : pk = DeclKind.Class ∨ pk = DeclKind.Method
      · exact hpk
      · exfalso
        simp [normalizeNode, Declaration.kind, defKind, hpk] at h
  | classNode n loc bs decs doc body =>
      intro h
      simp [normalizeNode, Declaration.kind] at h

/-- A normalized declaration has kind Function only when its enclosing
scope is the Module or a Function. -/
theorem kind_eq_function (pk : DeclKind) (path : List String) (c : CNode) :
    (normalizeNode pk path c).kind = DeclKind.Function →
    pk = DeclKind.Module ∨ pk = DeclKind.Function := by
  cases c with
  | defNode a n loc ps r decs doc body =>
      intro h
      by_cases hpk : pk = DeclKind.Class ∨ pk = DeclKind.Method
      · exfalso
        simp [normalizeNode, Declaration.kind, defKind, hpk] at h
      · cases pk with
        | Function => exact Or.inr rfl
        | Module => exact Or.inl rfl
        | Class => exact absurd (Or.inl rfl) hpk
        | Method => exact absurd (Or.inr rfl) hpk
  | classNode n loc bs decs doc body =>
      intro h
      simp [normalizeNode, Declaration.kind] at h

/-- Every element of a normalized sibling list is the normalization of
one of the concrete sibling nodes, under the same scope. -/
theorem mem_normalizeNodes (pk : DeclKind) (path : List String) :
    ∀ (cs : List CNode) (d : Declaration), d ∈ normalizeNodes pk path cs →
      ∃ c ∈ cs, d = normalizeNode pk path c := by
  intro cs
  induction cs with
  | nil =>
      intro d h
      simp [normalizeNodes] at h
  | cons c cs ih =>
      intro d h
      simp only [normalizeNodes, List.mem_cons] at h
      rcases h with h | h
      · exact ⟨c, List.mem_cons_self c cs, h⟩
      · obtain ⟨c', hc', he⟩ := ih d h
        exact ⟨c', List.mem_cons_of_mem c hc', he⟩

/-- Both kind-nesting conditions hold along every edge from a scope of
kind `k` to the declarations normalized inside it. -/
theorem normalizeNodes_edge (k : DeclKind) (path : List String)
    (body : List CNode) :
    ∀ c ∈ normalizeNodes k path body,
      (c.kind = DeclKind.Method →
        k = DeclKind.Class ∨ k = DeclKind.Method) ∧
      (c.kind = DeclKind.Function →
        k = DeclKind.Module ∨ k = DeclKind.Function) := by
  intro c hc
  obtain ⟨cn, hcn, he⟩ := mem_normalizeNodes k path body c hc
  subst he
  exact ⟨kind_eq_method k path cn, kind_eq_function k path cn⟩

mutual

/-- Qualifier exclusivity holds at every declaration a node normalizes to. -/
theorem qualExclusive_node :
    ∀ (pk : DeclKind) (path : List String) (c : CNode),
      QualExclusive (normalizeNode pk path c)
  | pk, path, CNode.defNode a n _loc _ps _r decs _doc body =>
      ⟨resolveModifiers_static_classlevel a decs,
       qualExclusive_nodes (defKind pk) (path ++ [n]) body⟩
  | _pk, path, CNode.classNode n _loc _bs decs _doc body =>
      ⟨resolveModifiers_static_classlevel false decs,
       qualExclusive_nodes DeclKind.Class (path ++ [n]) body⟩

/-- Qualifier exclusivity holds across a normalized sibling list. -/
theorem qualExclusive_nodes :
    ∀ (pk : DeclKind) (path : List String) (cs : List CNode),
      QualExclusiveAll (normalizeNodes pk path cs)
  | _, _, [] => True.intro
  | pk, path, c :: cs =>
      ⟨qualExclusive_node pk path c, qualExclusive_nodes pk path cs⟩

end

mutual

/-- The nesting invariant holds at every declaration a node normalizes to. -/
theorem nestOK_node :
    ∀ (pk : DeclKind) (path : List String) (c : CNode),
      NestOK (normalizeNode pk path c)
  | pk, path, CNode.defNode _a n _loc _ps _r _decs _doc body =>
      ⟨normalizeNodes_edge (defKind pk) (path ++ [n]) body,
       nestOK_nodes (defKind pk) (path ++ [n]) body⟩
  | _pk, path, CNode.classNode n _loc _bs _decs _doc body =>
      ⟨normalizeNodes_edge DeclKind.Class (path ++ [n]) body,
       nestOK_nodes DeclKind.Class (path ++ [n]) body⟩

/-- The nesting invariant holds across a normalized sibling list. -/
theorem nestOK_nodes :
    ∀ (pk : DeclKind) (path : List String) (cs : List CNode),
      NestOKAll (normalizeNodes pk path cs)
  | _, _, [] => True.intro
  | pk, path, c :: cs =>
      ⟨nestOK_node pk path c, nestOK_nodes pk path cs⟩

end

/-! ### The claims -/

/-- Claim C1: normalizing the fixture's `TestClass` block (lines 10-26)
alone yields exactly one Class declaration named `TestClass` with empty
`bases` (no synthetic "object" base), whose children are exactly four
Method declarations in source order — `__init__`, `instance_method`,
`class_method` with qualifier ClassLevel, and `static_method` with
qualifier Static. -/
theorem testclass_block_yields_one_class :
    (normalizeNodes DeclKind.Module [] [testClassNode]).map outlineOf =
      [("TestClass", DeclKind.Class, ([] : List Qualifier),
        ([] : List String))] ∧
    (normalizeNode DeclKind.Module [] testClassNode).children.map
        (fun c => (c.name, c.kind, c.qualifiers)) =
      [("__init__", DeclKind.Method, ([] : List Qualifier)),
       ("instance_method", DeclKind.Method, []),
       ("class_method", DeclKind.Method, [Qualifier.ClassLevel]),
       ("static_method", DeclKind.Method, [Qualifier.Static])] :=
  ⟨by decide, by decide⟩

/-- Claim C2: normalizing the fixture's `ChildClass` definition yields a
Class declaration whose `bases` is exactly `["TestClass"]`; base names
are taken from the class header verbatim for every class node, in
written order, with no symbol resolution. -/
theorem childclass_bases :
    ((normalizeNode DeclKind.Module [] childClassNode).kind =
      DeclKind.Class) ∧
    (normalizeNode DeclKind.Module [] childClassNode).bases =
      ["TestClass"] ∧
    (∀ (pk : DeclKind) (path : List String) (n : String) (loc : Location)
        (bs decs : List String) (doc : Option String) (body : List CNode),
      (normalizeNode pk path
          (CNode.classNode n loc bs decs doc body)).bases = bs) :=
  ⟨rfl, rfl, fun _ _ _ _ _ _ _ _ => rfl⟩

/-- Claim C3: normalizing `@decorator def decorated_function(): pass`
yields exactly one declaration keeping kind Function and name
`decorated_function`, with qualifier set exactly `[Decorated]` and the
raw decorator expression `"decorator"` preserved; and for every def
node, decoration changes neither the declaration's kind nor its name. -/
theorem decorated_function_kept_function :
    (normalizeNodes DeclKind.Module [] [decoratedFunctionNode]).map
        outlineOf =
      [("decorated_function", DeclKind.Function, [Qualifier.Decorated],
        ([] : List String))] ∧
    (normalizeNode DeclKind.Module [] decoratedFunctionNode).decoratorExprs =
      ["decorator"] ∧
    (∀ (pk : DeclKind) (path : List String) (a : Bool) (n : String)
        (loc : Location) (ps : List String) (r : Option String)
        (decs : List String) (doc : Option String) (body : List CNode),
      (normalizeNode pk path
          (CNode.defNode a n loc ps r decs doc body)).name = n ∧
      (normalizeNode pk path
          (CNode.defNode a n loc ps r decs doc body)).kind =
        (normalizeNode pk path
          (CNode.defNode a n loc ps r [] doc body)).kind) :=
  ⟨by decide, rfl, fun _ _ _ _ _ _ _ _ _ _ => ⟨rfl, rfl⟩⟩

/-- Claim C4: for every declaration form the fixture exercises, the
Normalizer produces exactly one Declaration with the correct kind,
qualifiers and bases — stated as the full golden outline of the module's
children, of `TestClass`'s methods, of `decorator`'s nested function and
of `ChildClass`'s method; in particular `async def async_function()`
normalizes to exactly one Function declaration carrying Async. -/
theorem fixture_golden_outline :
    fixtureTree.kind = DeclKind.Module ∧
    fixtureTree.children.map outlineOf =
      [("basic_function", DeclKind.Function, [], []),
       ("parameterized_function", DeclKind.Function, [], []),
       ("TestClass", DeclKind.Class, [], []),
       ("async_function", DeclKind.Function, [Qualifier.Async], []),
       ("decorator", DeclKind.Function, [], []),
       ("decorated_function", DeclKind.Function, [Qualifier.Decorated], []),
       ("ChildClass", DeclKind.Class, [], ["TestClass"])] ∧
    (normalizeNode DeclKind.Module [] testClassNode).children.map outlineOf =
      [("__init__", DeclKind.Method, [], []),
       ("instance_method", DeclKind.Method, [], []),
       ("class_method", DeclKind.Method, [Qualifier.ClassLevel], []),
       ("static_method", DeclKind.Method, [Qualifier.Static], [])] ∧
    (normalizeNode DeclKind.Module [] decoratorNode).children.map outlineOf =
      [("wrapper", DeclKind.Function, [], [])] ∧
    (normalizeNode DeclKind.Module [] childClassNode).children.map outlineOf =
      [("child_method", DeclKind.Method, [], [])] ∧
    (normalizeNodes DeclKind.Module [] [asyncFunctionNode]).map outlineOf =
      [("async_function", DeclKind.Function, [Qualifier.Async], [])] :=
  ⟨rfl, by decide, by decide, by decide, by decide, by decide⟩

/-- Claim C5: for every input concrete tree, no declaration anywhere in
the normalized module tree carries both Static and ClassLevel — the two
qualifiers are mutually exclusive. -/
theorem static_classlevel_exclusive :
    ∀ (nodes : List CNode) (span : Location),
      QualExclusive (normalizeModule nodes span) :=
  fun nodes _span =>
    ⟨fun h => by simp at h, qualExclusive_nodes DeclKind.Module [] nodes⟩

/-- Claim C5 witness: the exclusivity invariant at the fixture itself. -/
theorem static_classlevel_exclusive_witness :
    QualExclusive (normalizeModule fixtureNodes ⟨1, 45⟩) :=
  static_classlevel_exclusive fixtureNodes ⟨1, 45⟩

/-- Claim C6: in every normalized module tree, a declaration of kind
Method only ever sits under a parent of kind Class or Method, and a bare
Function only under the Module or another Function. -/
theorem method_parent_kind :
    ∀ (nodes : List CNode) (span : Location),
      NestOK (normalizeModule nodes span) :=
  fun nodes _span =>
    ⟨normalizeNodes_edge DeclKind.Module [] nodes,
     nestOK_nodes DeclKind.Module [] nodes⟩

/-- Claim C6 witness: the nesting invariant at the fixture itself. -/
theorem method_parent_kind_witness :
    NestOK (normalizeModule fixtureNodes ⟨1, 45⟩) :=
  method_parent_kind fixtureNodes ⟨1, 45⟩

/-- Claim C7: when the front end reports a `StructuralError` for a file,
the parse returns that error unchanged — same carried location — and no
Declaration tree; and every parse either fails with a `StructuralError`
or completes with a full tree, never anything partial. -/
theorem parse_atomic_on_error :
    (∀ (fe : String → Except StructuralError (List CNode))
        (span : Location) (src : String) (e : StructuralError),
      fe src = Except.error e → parseFile fe span src = Except.error e) ∧
    (∀ (fe : String → Except StructuralError (List CNode))
        (span : Location) (src : String),
      (∃ e, parseFile fe span src = Except.error e) ∨
      (∃ d, parseFile fe span src = Except.ok d)) := by
  constructor
  · intro fe span src e h
    simp [parseFile, h]
  · intro fe span src
    cases h : fe src with
    | error e => exact Or.inl ⟨e, by simp [parseFile, h]⟩
    | ok nodes => exact Or.inr ⟨normalizeModule nodes span, by simp [parseFile, h]⟩

/-- Claim C7 witness: a front end rejecting an unterminated class body at
line 3 makes the whole parse return that very `StructuralError`. -/
theorem parse_atomic_on_error_witness :
    parseFile rejectingFrontEnd ⟨1, 3⟩ "class C:" =
      Except.error { location := { startLine := 3, endLine := 3 } } :=
  parse_atomic_on_error.1 rejectingFrontEnd ⟨1, 3⟩ "class C:"
    { location := { startLine := 3, endLine := 3 } } rfl

/-- Claim C8: normalizing `parameterized_function` yields parameters, in
declaration order, `a : int` with no default and then `b : str` with a
default present, and the verbatim return type `"str"`. -/
theorem parameterized_function_params :
    (normalizeNode DeclKind.Module [] parameterizedFunctionNode).parameters =
      [{ name := "a", typeAnn := some "int", defaultValuePresent := false },
       { name := "b", typeAnn := some "str", defaultValuePresent := true }] ∧
    (normalizeNode DeclKind.Module [] parameterizedFunctionNode).returnType =
      some "str" :=
  ⟨by decide, rfl⟩

/-- Claim C9: the Normalizer sets `doc_comment` to exactly the leading
string literal the front end identified, and leaves it absent otherwise;
on the fixture, `TestClass` and `instance_method` get their docstrings
and the docstring-less declarations get none. -/
theorem doc_comment_propagated :
    (∀ (pk : DeclKind) (path : List String) (a : Bool) (n : String)
        (loc : Location) (ps : List String) (r : Option String)
        (decs : List String) (doc : Option String) (body : List CNode),
      (normalizeNode pk path
          (CNode.defNode a n loc ps r decs doc body)).docComment = doc) ∧
    (∀ (pk : DeclKind) (path : List String) (n : String) (loc : Location)
        (bs decs : List String) (doc : Option String) (body : List CNode),
      (normalizeNode pk path
          (CNode.classNode n loc bs decs doc body)).docComment = doc) ∧
    (normalizeNode DeclKind.Module [] testClassNode).docComment =
      some "Test class docstring" ∧
    (normalizeNode DeclKind.Module [] testClassNode).children.map
        Declaration.docComment =
      [none, some "Instance method docstring", none, none] ∧
    (normalizeNode DeclKind.Module [] basicFunctionNode).docComment = none ∧
    (normalizeNode DeclKind.Module [] classMethodNode).docComment = none ∧
    (normalizeNode DeclKind.Module [] staticMethodNode).docComment = none :=
  ⟨fun _ _ _ _ _ _ _ _ _ _ => rfl, fun _ _ _ _ _ _ _ _ => rfl,
   rfl, by decide, rfl, rfl, rfl⟩

/-- Claim C10: the fixture's `wrapper` (lines 34-35) is normalized as a
child of the Function `decorator` with qualified path
`decorator.wrapper`, not as a module-level declaration, and the
`decorator` function's own declaration carries no Decorated qualifier. -/
theorem wrapper_nested_in_decorator :
    fixtureTree.children =
      [normalizeNode DeclKind.Module [] basicFunctionNode,
       normalizeNode DeclKind.Module [] parameterizedFunctionNode,
       normalizeNode DeclKind.Module [] testClassNode,
       normalizeNode DeclKind.Module [] asyncFunctionNode,
       normalizeNode DeclKind.Module [] decoratorNode,
       normalizeNode DeclKind.Module [] decoratedFunctionNode,
       normalizeNode DeclKind.Module [] childClassNode] ∧
    (normalizeNode DeclKind.Module [] decoratorNode).kind =
      DeclKind.Function ∧
    (normalizeNode DeclKind.Module [] decoratorNode).children.map
        (fun c => (c.name, c.kind, c.qualifiedPath)) =
      [("wrapper", DeclKind.Function, ["decorator", "wrapper"])] ∧
    (normalizeNode DeclKind.Module [] decoratorNode).qualifiers = [] ∧
    fixtureTree.children.map Declaration.name =
      ["basic_function", "parameterized_function", "TestClass",
       "async_function", "decorator", "decorated_function", "ChildClass"] ∧
    "wrapper" ∉ fixtureTree.children.map Declaration.name :=
  ⟨rfl, rfl, by decide, rfl, by decide, by decide⟩

end Forge.Syn
